import Mathlib

/-!
Verification of the deferred-expiry orchestration pipeline of the todo
backend: a shallow embedding of src/expiry_handler.py, src/process_stream.py
and src/stream_router.py, followed by theorems about the embedded code.

Modelling conventions used throughout:
- a DynamoDB record at one storage key is an Option of a structure; an
  absent record (deleted task) is none;
- ISO-8601 timestamp strings are kept as strings; where the code parses
  them with datetime.fromisoformat, the embedding reads them as decimal
  integers standing for UTC epochs, which is order-isomorphic to datetime
  comparison and keeps parsing executable;
- each call to an external client (DynamoDB, SNS, EventBridge) that can
  fail is driven by an explicit boolean saying whether the endpoint
  succeeds on this invocation;
- a Python exception that escapes a function is an Except.error; a caught
  exception is reflected directly in the branch the handler takes.
-/

namespace Todo

/-- Task status values stored in the Task Store. Deletion is a physical
removal of the record, modelled as absence, not a status value. -/
inductive Status
  | pending
  | completed
  | expired
deriving DecidableEq, Repr

/-- A stored Task record at one storage key: the attributes read and
written by the expiry path, namely status, description, deadline and the
derived index field GSI1PK. -/
structure Task where
  status : Status
  description : String
  deadline : String
  gsi1pk : String
deriving DecidableEq, Repr

/-- The SET clause of the expiry update (src/expiry_handler.py lines 49-52
and src/process_stream.py lines 134-136): status becomes Expired and the
derived index field GSI1PK is set to the string Expired. -/
def expireTask (t : Task) : Task :=
  { t with status := Status.expired, gsi1pk := "Expired" }

namespace ExpiryHandler

/-- EventBridge target input payload (src/expiry_handler.py lines 32-35):
four fields read with .get, hence each possibly absent. -/
structure Payload where
  taskId : Option String
  userId : Option String
  pk : Option String
  sk : Option String
deriving DecidableEq, Repr

/-- Python truthiness of an optional string: None and the empty string are
both falsy. -/
def truthy : Option String → Bool
  | none => false
  | some s => !s.isEmpty

/-- The check all([task_id, user_id, pk, sk]) at src/expiry_handler.py
line 37. -/
def payloadValid (p : Payload) : Bool :=
  truthy p.taskId && truthy p.userId && truthy p.pk && truthy p.sk

/-- How one Lambda invocation ends: a normal return carrying a status
code, or an uncaught exception propagated to the invoking trigger
mechanism. -/
inductive InvokeResult
  | ok (statusCode : Nat)
  | raised
deriving DecidableEq, Repr

/-- Observable outcome of one Expiry Executor invocation: the record
stored at the key named by the payload, the notifications published on
the topic during the invocation (as subject lines), and how the
invocation ended. -/
structure Outcome where
  store : Option Task
  notifications : List String
  result : InvokeResult
deriving DecidableEq, Repr

/-- Subject line of the expiry notification (src/expiry_handler.py
line 74), built from the ALL_NEW attributes returned by the update. -/
def subjectOf (t : Task) : String :=
  "Task Expired: " ++ t.description

/-- Shallow embedding of handler in src/expiry_handler.py. The st
argument is the record at the key (pk, sk) named by the payload; snsOk
says whether the sns.publish call succeeds. The DynamoDB call at lines
44-54 is a conditional update whose condition is status = Pending: on a
record whose status is not Pending, and equally on an absent record,
DynamoDB raises ConditionalCheckFailedException and writes nothing (a
conditional update never creates the record). That exception is caught
at line 79 and the invocation returns 200; any other exception, notably
a failed publish, reaches the handler at line 83 and is re-raised. -/
def handler (p : Payload) (snsOk : Bool) (st : Option Task) : Outcome :=
  if payloadValid p then
    match st with
    | some t =>
      if t.status = Status.pending then
        if snsOk then
          { store := some (expireTask t)
            notifications := [subjectOf (expireTask t)]
            result := InvokeResult.ok 200 }
        else
          { store := some (expireTask t)
            notifications := []
            result := InvokeResult.raised }
      else
        { store := st, notifications := [], result := InvokeResult.ok 200 }
    | none =>
      { store := st, notifications := [], result := InvokeResult.ok 200 }
  else
    { store := st, notifications := [], result := InvokeResult.ok 400 }

/-- Helper: on a valid payload, when the stored record is absent or not
Pending, the handler leaves the store unchanged, publishes nothing and
returns 200 (the ConditionalCheckFailedException branch at line 79). -/
theorem handler_nonpending_noop (p : Payload) (snsOk : Bool) (st : Option Task)
    (hp : payloadValid p = true)
    (hne : ∀ t, st = some t → t.status ≠ Status.pending) :
    handler p snsOk st =
      { store := st, notifications := [], result := InvokeResult.ok 200 } := by
  cases st with
  | none => simp [handler, hp]
  | some t =>
    have ht : ¬ t.status = Status.pending := hne t rfl
    simp [handler, hp, ht]

/-- Helper: whatever the handler stores at the key is never a Pending
record, provided the payload is valid. -/
theorem handler_store_not_pending (p : Payload) (snsOk : Bool) (st : Option Task)
    (hp : payloadValid p = true) :
    ∀ t, (handler p snsOk st).store = some t → t.status ≠ Status.pending := by
  intro t h
  cases st with
  | none =>
    simp [handler, hp] at h
  | some t0 =>
    by_cases h0 : t0.status = Status.pending
    · cases snsOk <;>
        · simp [handler, hp, h0] at h
          subst h
          simp [expireTask]
    · simp [handler, hp, h0] at h
      subst h
      exact h0

end ExpiryHandler

namespace ProcessStream

/-- Shallow embedding of expire_and_notify_task (src/process_stream.py
lines 111-163): read the record at the key, and only when it exists with
status Pending, write status Expired (and GSI1PK) back and publish a
notification; every exception raised inside, including a failed publish,
is caught at line 162 and only logged, so the call always returns
normally. Returns the record stored at the key after the call together
with the notifications published. -/
def expireAndNotifyTask (snsOk : Bool) (st : Option Task) : Option Task × List String :=
  match st with
  | none => (st, [])
  | some t =>
    if t.status = Status.pending then
      if snsOk then (some (expireTask t), ["Task Expired: " ++ t.description])
      else (some (expireTask t), [])
    else (st, [])

end ProcessStream

/-- C1: for every Expiry Executor invocation with a payload naming an
existing task, the Pending-to-Expired transition applies exactly when the
currently stored status is Pending (updating the derived index field),
and a task stored as Completed or Expired, or already deleted, is never
overwritten. Both executor code paths are covered: the conditional
update of src/expiry_handler.py (a single conditional write) and the
read-check-write of expire_and_notify_task in src/process_stream.py,
which in the sequential semantics of this embedding applies only if the
currently stored status is Pending. -/
theorem C1_expiry_only_if_pending (p : ExpiryHandler.Payload) (snsOk : Bool)
    (st : Option Task) (hp : ExpiryHandler.payloadValid p = true) :
    ((∀ t, st = some t → t.status ≠ Status.pending) →
      (ExpiryHandler.handler p snsOk st).store = st ∧
      (ProcessStream.expireAndNotifyTask snsOk st).1 = st) ∧
    (∀ t, st = some t → t.status = Status.pending →
      (ExpiryHandler.handler p snsOk st).store = some (expireTask t) ∧
      (ProcessStream.expireAndNotifyTask snsOk st).1 = some (expireTask t)) := by
  constructor
  · intro hne
    rw [ExpiryHandler.handler_nonpending_noop p snsOk st hp hne]
    refine ⟨rfl, ?_⟩
    cases st with
    | none => rfl
    | some t =>
      have ht : ¬ t.status = Status.pending := hne t rfl
      simp [ProcessStream.expireAndNotifyTask, ht]
  · intro t hst hpend
    subst hst
    cases snsOk <;>
      simp [ExpiryHandler.handler, ProcessStream.expireAndNotifyTask, hp, hpend]

/-- A concrete valid trigger payload, used by witnesses. -/
def payload0 : ExpiryHandler.Payload :=
  ⟨some "t1", some "u1", some "USER#u1", some "TASK#t1"⟩

/-- A concrete Pending task, used by witnesses. -/
def taskPending : Task :=
  ⟨Status.pending, "buy milk", "100", "Pending"⟩

/-- Witness for C1 at a concrete Pending task and valid payload. -/
theorem C1_witness :
    (ExpiryHandler.handler payload0 true (some taskPending)).store =
      some (expireTask taskPending) :=
  ((C1_expiry_only_if_pending payload0 true (some taskPending) (by decide)).2
    taskPending rfl rfl).1

/-- C2: invoking the Expiry Executor twice with the same trigger payload
is idempotent. After the first invocation the record at the key is never
Pending, so the second invocation hits the failed-condition branch: it
leaves the store unchanged, publishes no notification and returns 200,
whatever the publish outcomes of either invocation were. -/
theorem C2_double_fire_idempotent (p : ExpiryHandler.Payload) (b1 b2 : Bool)
    (st : Option Task) (hp : ExpiryHandler.payloadValid p = true) :
    (∀ t, (ExpiryHandler.handler p b1 st).store = some t →
        t.status ≠ Status.pending) ∧
    ExpiryHandler.handler p b2 (ExpiryHandler.handler p b1 st).store =
      { store := (ExpiryHandler.handler p b1 st).store
        notifications := []
        result := ExpiryHandler.InvokeResult.ok 200 } := by
  refine ⟨ExpiryHandler.handler_store_not_pending p b1 st hp, ?_⟩
  exact ExpiryHandler.handler_nonpending_noop p b2 _ hp
    (ExpiryHandler.handler_store_not_pending p b1 st hp)

/-- Witness for C2: double firing on a concrete Pending task. -/
theorem C2_witness :
    ExpiryHandler.handler payload0 true
        (ExpiryHandler.handler payload0 true (some taskPending)).store =
      { store := (ExpiryHandler.handler payload0 true (some taskPending)).store
        notifications := []
        result := ExpiryHandler.InvokeResult.ok 200 } :=
  (C2_double_fire_idempotent payload0 true true (some taskPending) (by decide)).2

/-- C3: when the conditional update fails because the stored status is
not Pending, or because the record does not exist, the executor completes
successfully with status 200, publishes nothing and leaves the store
unchanged. -/
theorem C3_condfail_noop (p : ExpiryHandler.Payload) (snsOk : Bool)
    (st : Option Task) (hp : ExpiryHandler.payloadValid p = true)
    (hne : ∀ t, st = some t → t.status ≠ Status.pending) :
    ExpiryHandler.handler p snsOk st =
      { store := st, notifications := [], result := ExpiryHandler.InvokeResult.ok 200 } :=
  ExpiryHandler.handler_nonpending_noop p snsOk st hp hne

/-- A concrete Completed task, used by witnesses and counterexamples. -/
def taskCompleted : Task :=
  ⟨Status.completed, "buy milk", "100", "Completed"⟩

/-- Witness for C3 at an absent record and at a Completed record. -/
theorem C3_witness :
    ExpiryHandler.handler payload0 true none =
      { store := none, notifications := []
        result := ExpiryHandler.InvokeResult.ok 200 } ∧
    ExpiryHandler.handler payload0 false (some taskCompleted) =
      { store := some taskCompleted, notifications := []
        result := ExpiryHandler.InvokeResult.ok 200 } :=
  ⟨C3_condfail_noop payload0 true none (by decide) (by intro t h; cases h),
   C3_condfail_noop payload0 false (some taskCompleted) (by decide)
     (by intro t h; cases h; decide)⟩

/-- C4 counterexample: the claim says a failed notification publish is
only logged and no error is propagated to the invoking trigger
mechanism. On a concrete Pending task with a failing publish, the
generic except block of src/expiry_handler.py at lines 83-86 re-raises,
so the invocation ends in an uncaught exception, not a success. -/
theorem C4_counterexample :
    (ExpiryHandler.handler payload0 false (some taskPending)).result =
      ExpiryHandler.InvokeResult.raised ∧
    (ExpiryHandler.handler payload0 false (some taskPending)).result ≠
      ExpiryHandler.InvokeResult.ok 200 := by
  constructor
  · rfl
  · decide

/-- C4 amended: when the conditional update to Expired succeeds and the
notification publish then fails, the Expired transition is not rolled
back and no notification is published, but the exception is re-raised:
the invocation fails and the trigger mechanism may retry (a retry is
harmless, the status being no longer Pending). -/
theorem C4_amended_publish_failure (p : ExpiryHandler.Payload) (t : Task)
    (hp : ExpiryHandler.payloadValid p = true)
    (ht : t.status = Status.pending) :
    ExpiryHandler.handler p false (some t) =
      { store := some (expireTask t)
        notifications := []
        result := ExpiryHandler.InvokeResult.raised } := by
  simp [ExpiryHandler.handler, hp, ht]

/-- Witness for the amended C4 at a concrete Pending task. -/
theorem C4_amended_witness :
    ExpiryHandler.handler payload0 false (some taskPending) =
      { store := some (expireTask taskPending)
        notifications := []
        result := ExpiryHandler.InvokeResult.raised } :=
  C4_amended_publish_failure payload0 taskPending (by decide) rfl

namespace ProcessStream

/-- A DynamoDB stream image as converted by get_task_details
(src/process_stream.py lines 21-33): the seven string attributes the
processor reads, each possibly absent. get_task_details filters absent
fields out of the dict; the Option fields here carry the same
information. -/
structure Image where
  PK : Option String
  SK : Option String
  taskId : Option String
  userId : Option String
  description : Option String
  status : Option String
  deadline : Option String
deriving DecidableEq, Repr

/-- The dict produced by get_task_details is falsy exactly when every
field is absent (the not task test at line 227). -/
def Image.viewEmpty (i : Image) : Bool :=
  i.PK.isNone && i.SK.isNone && i.taskId.isNone && i.userId.isNone &&
  i.description.isNone && i.status.isNone && i.deadline.isNone

/-- Initial-segment test on character lists, auxiliary to pyStartsWith. -/
def listBegins : List Char → List Char → Bool
  | _, [] => true
  | [], _ :: _ => false
  | c :: cs, d :: ds => (c == d) && listBegins cs ds

/-- The Python str.startswith test, computed on the character lists so
that it evaluates on concrete inputs. -/
def pyStartsWith (s p : String) : Bool :=
  listBegins s.toList p.toList

/-- Accumulating decimal value of a character list; none on the first
non-digit character. -/
def digitsVal (cs : List Char) (acc : Nat) : Option Nat :=
  match cs with
  | [] => some acc
  | c :: rest =>
    if c.isDigit then digitsVal rest (acc * 10 + (c.toNat - 48)) else none

/-- Reading a timestamp string as an integer UTC epoch: the embedding of
datetime.fromisoformat under the integer-epoch abstraction of ISO-8601
timestamps. A string that is not an optionally signed decimal numeral is
unparsable, which stands for the ValueError fromisoformat raises. -/
def parseEpoch (s : String) : Option Int :=
  match s.toList with
  | [] => none
  | '-' :: rest => (digitsVal rest 0).map (fun v => -(v : Int))
  | cs => (digitsVal cs 0).map (fun v => (v : Int))

/-- One queued change record after its JSON body has been parsed: the
eventName and the optional old and new images (lines 206-222). -/
structure StreamRecord where
  eventName : Option String
  newImage : Option Image
  oldImage : Option Image
deriving DecidableEq, Repr

/-- Deterministic EventBridge rule name (line 52): the constant rule-name
stem followed by the taskId. -/
def ruleName (taskId : String) : String :=
  "TodoAppTaskExpiry-" ++ taskId

/-- The trigger registry: the live EventBridge rules, as pairs of rule
name and fire time. put_rule with an existing name overwrites that
rule. -/
abbrev Registry := List (String × Int)

/-- Removal of a rule by name: delete_rule, and also the overwrite step
of put_rule. -/
def eraseRule (reg : Registry) (n : String) : Registry :=
  reg.filter (fun e => e.1 ≠ n)

/-- The live registry entries carrying a given rule name. -/
def liveFor (reg : Registry) (n : String) : Registry :=
  reg.filter (fun e => e.1 = n)

/-- The commands the processor issues to the trigger registry client. A
command is recorded when the corresponding client call is attempted,
whether or not the registry endpoint accepts it. -/
inductive RegAction
  | schedule (name : String) (fireAt : Int)
  | cancel (name : String)
deriving DecidableEq, Repr

/-- Processor environment: whether EXPIRY_HANDLER_ARN is configured,
whether the registry endpoint is reachable (when false, every events
client call raises), and the current time as seen by datetime.now. -/
structure Config where
  expiryArnSet : Bool
  registryOk : Bool
  now : Int
deriving DecidableEq, Repr

/-- Shallow embedding of schedule_expiry_event (src/process_stream.py
lines 35-85). When EXPIRY_HANDLER_ARN is unset the function returns at
line 40. The deadline is read and parsed at line 43, before the try
block, so a missing or unparsable deadline raises out of the function,
as does a missing taskId, userId, PK or SK (lines 51-60). A past-or-now
deadline returns at line 48 without touching the registry. The put_rule
and put_targets calls sit inside the try block whose except at line 84
catches and only logs, so a registry failure never raises; the schedule
command is still recorded as attempted. -/
def scheduleExpiryEvent (cfg : Config) (task : Image) (reg : Registry) :
    Except Unit (Registry × List RegAction) :=
  if cfg.expiryArnSet = false then Except.ok (reg, [])
  else
    match task.deadline with
    | none => Except.error ()
    | some ds =>
      match parseEpoch ds with
      | none => Except.error ()
      | some d =>
        if d ≤ cfg.now then Except.ok (reg, [])
        else
          match task.taskId, task.userId, task.PK, task.SK with
          | some tid, some _, some _, some _ =>
            if cfg.registryOk then
              Except.ok ((ruleName tid, d) :: eraseRule reg (ruleName tid),
                [RegAction.schedule (ruleName tid) d])
            else
              Except.ok (reg, [RegAction.schedule (ruleName tid) d])
          | _, _, _, _ => Except.error ()

/-- Shallow embedding of cancel_expiry_event (src/process_stream.py
lines 87-109): every exception, ResourceNotFound or otherwise, is caught
inside the function, so the call always returns normally; cancelling a
missing rule is a no-op treated as success. The cancel command is
recorded as attempted either way. -/
def cancelExpiryEvent (cfg : Config) (taskId : String) (reg : Registry) :
    Registry × List RegAction :=
  if cfg.registryOk then
    (eraseRule reg (ruleName taskId), [RegAction.cancel (ruleName taskId)])
  else (reg, [RegAction.cancel (ruleName taskId)])

/-- What the per-record classification of handler (lines 203-260)
decides to do with one record, before any registry call is made. err is
an exception raised during classification: a missing image handed to
get_task_details (AttributeError, lines 211-221) or a missing taskId or
status read by direct indexing (lines 230 and 233). -/
inductive Plan
  | skip
  | err
  | sched (img : Image)
  | cancelOnly (tid : String)
  | resched (tid : String) (img : Image)
deriving DecidableEq, Repr

/-- The task-item filter at line 227: skip when the converted view is
empty or the sort key does not start with TASK#. -/
def taskFilter (img : Image) : Bool :=
  img.viewEmpty || !(pyStartsWith (img.SK.getD "") "TASK#")

/-- Classification of one record, mirroring lines 207-260 of
src/process_stream.py: extraction of the images per event type, the
task-item filter, the taskId read, and the decision table on statuses
and deadlines. The deadline comparison at line 252 is a raw string
comparison guarded by Python truthiness of both strings. -/
def recordPlan (r : StreamRecord) : Plan :=
  if r.eventName = some "INSERT" then
    match r.newImage with
    | none => Plan.err
    | some img =>
      if taskFilter img then Plan.skip
      else
        match img.taskId with
        | none => Plan.err
        | some _ =>
          match img.status with
          | none => Plan.err
          | some s => if s = "Pending" then Plan.sched img else Plan.skip
  else if r.eventName = some "MODIFY" then
    match r.newImage, r.oldImage with
    | some imgN, some imgO =>
      if taskFilter imgN then Plan.skip
      else
        match imgN.taskId with
        | none => Plan.err
        | some tid =>
          if imgO.status = some "Pending" &&
              (imgN.status = some "Completed" || imgN.status = some "Expired") then
            Plan.cancelOnly tid
          else if imgN.status = some "Pending" && imgO.status = some "Pending" then
            match imgO.deadline, imgN.deadline with
            | some dso, some dsn =>
              if !dso.isEmpty && !dsn.isEmpty && dso != dsn then
                Plan.resched tid imgN
              else Plan.skip
            | _, _ => Plan.skip
          else Plan.skip
    | _, _ => Plan.err
  else if r.eventName = some "REMOVE" then
    match r.oldImage with
    | none => Plan.err
    | some img =>
      if taskFilter img then Plan.skip
      else
        match img.taskId with
        | none => Plan.err
        | some tid => Plan.cancelOnly tid
  else Plan.skip

/-- Execution of a classified record against the trigger registry: no
call for skip, a raised exception for err, schedule_expiry_event for an
Insert of a Pending task, cancel_expiry_event for a terminal Modify or
any Remove of a task item, and cancel followed by schedule for a
Pending-to-Pending deadline change (lines 253-256). -/
def runPlan (cfg : Config) (p : Plan) (reg : Registry) :
    Except Unit (Registry × List RegAction) :=
  match p with
  | Plan.skip => Except.ok (reg, [])
  | Plan.err => Except.error ()
  | Plan.sched img => scheduleExpiryEvent cfg img reg
  | Plan.cancelOnly tid => Except.ok (cancelExpiryEvent cfg tid reg)
  | Plan.resched tid img =>
    let c := cancelExpiryEvent cfg tid reg
    match scheduleExpiryEvent cfg img c.1 with
    | Except.error e => Except.error e
    | Except.ok (reg', acts) => Except.ok (reg', c.2 ++ acts)

/-- One full record step of the SQS branch of handler: classify, then
act on the registry. An Except.error is an exception that reaches the
per-record except block at line 262. -/
def processRecord (cfg : Config) (r : StreamRecord) (reg : Registry) :
    Except Unit (Registry × List RegAction) :=
  runPlan cfg (recordPlan r) reg

/-- The SQS branch of handler over a whole batch (lines 201-267):
records processed in order; the first exception that reaches the
per-record except block is re-raised, failing the whole invocation, so
no record of the batch is acknowledged. -/
def processStreamBatch (cfg : Config) (rs : List StreamRecord) (reg : Registry) :
    Except Unit (Registry × List RegAction) :=
  match rs with
  | [] => Except.ok (reg, [])
  | r :: rest =>
    match processRecord cfg r reg with
    | Except.error e => Except.error e
    | Except.ok (reg', acts) =>
      match processStreamBatch cfg rest reg' with
      | Except.error e => Except.error e
      | Except.ok (reg2, acts2) => Except.ok (reg2, acts ++ acts2)

end ProcessStream

namespace StreamRouter

/-- One DynamoDB stream record as the router sees it: its unique eventID
and the identifier of the task the record belongs to (carried inside the
record body; the router itself never reads it). -/
structure RouterRecord where
  eventID : String
  ownerTaskId : String
deriving DecidableEq, Repr

/-- One SQS FIFO batch entry as built at src/stream_router.py lines
28-33. -/
structure SqsEntry where
  id : String
  dedupId : String
  groupId : String
deriving DecidableEq, Repr

/-- Lines 20-33 of src/stream_router.py: each record becomes one entry
whose Id and MessageDeduplicationId are the record eventID and whose
MessageGroupId is the constant string TaskProcessingGroup. -/
def routerEntry (r : RouterRecord) : SqsEntry :=
  ⟨r.eventID, r.eventID, "TaskProcessingGroup"⟩

/-- The batch of entries the router sends for a batch of records. -/
def entriesOf (rs : List RouterRecord) : List SqsEntry :=
  rs.map routerEntry

end StreamRouter

/-- Helper: whether schedule_expiry_event raises depends only on the ARN
configuration, the clock and the task view, never on the registry state
or the availability of the registry endpoint, whose failures are caught
inside the function. -/
theorem scheduleExpiryEvent_isOk_indep (a b b' : Bool) (n : Int)
    (t : ProcessStream.Image) (reg reg' : ProcessStream.Registry) :
    (ProcessStream.scheduleExpiryEvent ⟨a, b, n⟩ t reg).isOk =
      (ProcessStream.scheduleExpiryEvent ⟨a, b', n⟩ t reg').isOk := by
  obtain ⟨pk, sk, tid, uid, desc, st, dl⟩ := t
  unfold ProcessStream.scheduleExpiryEvent
  cases a with
  | false => rfl
  | true =>
    cases dl with
    | none => rfl
    | some ds =>
      cases hp : ProcessStream.parseEpoch ds with
      | none => simp [hp]
      | some d =>
        by_cases hd : d ≤ n
        · simp [hp, hd, Except.isOk, Except.toBool]
        · cases tid <;> cases uid <;> cases pk <;> cases sk <;>
            cases b <;> cases b' <;> simp [hp, hd, Except.isOk, Except.toBool]

/-- A fully populated Pending task image with deadline 100. -/
def imgPending : ProcessStream.Image :=
  ⟨some "USER#u1", some "TASK#t1", some "t1", some "u1", some "buy milk",
   some "Pending", some "100"⟩

/-- Processor environment with the ARN configured, the registry up, and
clock 0. -/
def cfgLive : ProcessStream.Config := ⟨true, true, 0⟩

/-- Processor environment with the ARN configured but the registry
endpoint failing every call. -/
def cfgRegDown : ProcessStream.Config := ⟨true, false, 0⟩

/-- C5 counterexample: the claim says a trigger-registry failure during a
schedule command makes the processor fail the record so the queue
redelivers it. On a concrete Insert of a Pending task with the registry
endpoint down, put_rule raises, the except block inside
schedule_expiry_event at line 84 catches and only logs it, and the batch
completes as acknowledged (Except.ok) with the registry unchanged: the
error is silently swallowed and the record is never retried. -/
theorem C5_counterexample :
    ProcessStream.processStreamBatch cfgRegDown
        [⟨some "INSERT", some imgPending, none⟩] [] =
      Except.ok (([] : ProcessStream.Registry),
        [ProcessStream.RegAction.schedule (ProcessStream.ruleName "t1") 100]) := by
  rfl

/-- C5 amended: an exception that reaches the per-record block of handler
(line 262) is re-raised, so the batch is not acknowledged and the queue
redelivers it; but a trigger-registry failure during a schedule or
cancel command is caught and logged inside schedule_expiry_event and
cancel_expiry_event, so whether a record is acknowledged never depends
on registry availability. -/
theorem C5_amended_registry_failures_swallowed (a : Bool) (n : Int)
    (r : ProcessStream.StreamRecord) (reg : ProcessStream.Registry) :
    ((ProcessStream.processRecord ⟨a, false, n⟩ r reg).isOk =
      (ProcessStream.processRecord ⟨a, true, n⟩ r reg).isOk) ∧
    (∀ rest, ProcessStream.processRecord ⟨a, false, n⟩ r reg = Except.error () →
      ProcessStream.processStreamBatch ⟨a, false, n⟩ (r :: rest) reg =
        Except.error ()) := by
  constructor
  · unfold ProcessStream.processRecord ProcessStream.runPlan
    cases hplan : ProcessStream.recordPlan r with
    | skip => rfl
    | err => rfl
    | sched img => exact scheduleExpiryEvent_isOk_indep a false true n img reg reg
    | cancelOnly tid => rfl
    | resched tid img =>
      have h := scheduleExpiryEvent_isOk_indep a false true n img
        ((ProcessStream.cancelExpiryEvent ⟨a, false, n⟩ tid reg).1)
        ((ProcessStream.cancelExpiryEvent ⟨a, true, n⟩ tid reg).1)
      cases h1 : ProcessStream.scheduleExpiryEvent ⟨a, false, n⟩ img
          ((ProcessStream.cancelExpiryEvent ⟨a, false, n⟩ tid reg).1) with
      | error e =>
        rw [h1] at h
        cases h2 : ProcessStream.scheduleExpiryEvent ⟨a, true, n⟩ img
            ((ProcessStream.cancelExpiryEvent ⟨a, true, n⟩ tid reg).1) with
        | error e2 => simp [h1, h2]
        | ok v => rw [h2] at h; simp [Except.isOk, Except.toBool] at h
      | ok v =>
        rw [h1] at h
        cases h2 : ProcessStream.scheduleExpiryEvent ⟨a, true, n⟩ img
            ((ProcessStream.cancelExpiryEvent ⟨a, true, n⟩ tid reg).1) with
        | error e2 => rw [h2] at h; simp [Except.isOk, Except.toBool] at h
        | ok v2 =>
          obtain ⟨r1, a1⟩ := v
          obtain ⟨r2, a2⟩ := v2
          simp [h1, h2, Except.isOk, Except.toBool]
  · intro rest herr
    unfold ProcessStream.processStreamBatch
    rw [herr]

/-- Witness for the amended C5: a record whose image is missing raises,
and the whole batch fails unacknowledged. -/
theorem C5_amended_witness :
    ProcessStream.processStreamBatch ⟨true, false, 0⟩
        [⟨some "INSERT", none, none⟩] [] = Except.error () :=
  (C5_amended_registry_failures_swallowed true 0
    ⟨some "INSERT", none, none⟩ []).2 [] rfl

/-- C6 counterexample: the claim says the ordering-group key of an
enqueued record equals the owning task identifier. On a concrete record
of task t1, the router sets MessageGroupId to the constant string
TaskProcessingGroup, not to t1 (src/stream_router.py line 32). -/
theorem C6_counterexample :
    (StreamRouter.routerEntry ⟨"evt-1", "t1"⟩).groupId = "TaskProcessingGroup" ∧
    (StreamRouter.routerEntry ⟨"evt-1", "t1"⟩).groupId ≠ "t1" := by
  exact ⟨rfl, by decide⟩

/-- C6 amended: the router enqueues each record with the record eventID
as the deduplication key, and with one constant ordering-group key,
TaskProcessingGroup, shared by every record, so all records of all tasks
are delivered in a single totally ordered group (records of the same
task are therefore in relative order, but different tasks are ordered
with respect to each other too, rather than independent). -/
theorem C6_amended_constant_group (rs : List StreamRouter.RouterRecord) :
    ((StreamRouter.entriesOf rs).map StreamRouter.SqsEntry.dedupId =
      rs.map StreamRouter.RouterRecord.eventID) ∧
    (∀ e ∈ StreamRouter.entriesOf rs, e.groupId = "TaskProcessingGroup") := by
  constructor
  · simp [StreamRouter.entriesOf, StreamRouter.routerEntry, List.map_map,
      Function.comp]
  · intro e he
    simp [StreamRouter.entriesOf] at he
    obtain ⟨r, _, rfl⟩ := he
    rfl

/-- Witness for the amended C6 at a concrete record. -/
theorem C6_amended_witness :
    (StreamRouter.routerEntry ⟨"evt-2", "t2"⟩).groupId = "TaskProcessingGroup" :=
  (C6_amended_constant_group [⟨"evt-2", "t2"⟩]).2
    (StreamRouter.routerEntry ⟨"evt-2", "t2"⟩) (by decide)

/-- A fully populated Completed task image. -/
def imgCompleted : ProcessStream.Image :=
  ⟨some "USER#u1", some "TASK#t1", some "t1", some "u1", some "buy milk",
   some "Completed", some "100"⟩

/-- C7 counterexample: the claim says a Remove record whose old image is
non-Pending produces no cancel command. On a concrete Remove of a
Completed task, handler reaches line 260 unconditionally and issues a
cancel command to the registry. -/
theorem C7_counterexample :
    ProcessStream.processRecord cfgLive ⟨some "REMOVE", none, some imgCompleted⟩ [] =
      Except.ok (([] : ProcessStream.Registry),
        [ProcessStream.RegAction.cancel (ProcessStream.ruleName "t1")]) ∧
    [ProcessStream.RegAction.cancel (ProcessStream.ruleName "t1")] ≠
      ([] : List ProcessStream.RegAction) := by
  exact ⟨rfl, by decide⟩

/-- C7 amended: for every Remove record of a task item, whatever the old
status, the processor issues exactly one cancel command and no schedule
command; the cancel is harmless best-effort removal of the rule. -/
theorem C7_amended_remove_always_cancels (cfg : ProcessStream.Config)
    (img : ProcessStream.Image) (reg : ProcessStream.Registry) (tid : String)
    (hfilter : ProcessStream.taskFilter img = false)
    (htid : img.taskId = some tid) :
    ProcessStream.processRecord cfg ⟨some "REMOVE", none, some img⟩ reg =
      Except.ok (ProcessStream.cancelExpiryEvent cfg tid reg) ∧
    (ProcessStream.cancelExpiryEvent cfg tid reg).2 =
      [ProcessStream.RegAction.cancel (ProcessStream.ruleName tid)] := by
  constructor
  · unfold ProcessStream.processRecord
    have hplan : ProcessStream.recordPlan ⟨some "REMOVE", none, some img⟩ =
        ProcessStream.Plan.cancelOnly tid := by
      unfold ProcessStream.recordPlan
      simp [hfilter, htid]
    rw [hplan]
    rfl
  · cases h : cfg.registryOk <;> simp [ProcessStream.cancelExpiryEvent, h]

/-- Witness for the amended C7: removing a Completed task cancels its
live rule. -/
theorem C7_amended_witness :
    ProcessStream.processRecord cfgLive ⟨some "REMOVE", none, some imgCompleted⟩
        [(ProcessStream.ruleName "t1", 100)] =
      Except.ok (([] : ProcessStream.Registry),
        [ProcessStream.RegAction.cancel (ProcessStream.ruleName "t1")]) := by
  rw [(C7_amended_remove_always_cancels cfgLive imgCompleted
    [(ProcessStream.ruleName "t1", 100)] "t1" (by decide) rfl).1]
  rfl

/-- Helper: erasing a rule name twice equals erasing it once. -/
theorem eraseRule_idem (reg : ProcessStream.Registry) (n : String) :
    ProcessStream.eraseRule (ProcessStream.eraseRule reg n) n =
      ProcessStream.eraseRule reg n := by
  unfold ProcessStream.eraseRule
  induction reg with
  | nil => rfl
  | cons e rest ih =>
    by_cases h : e.1 = n <;> simp [h, ih]

/-- Helper: no live entry with a given rule name survives erasing that
name. -/
theorem liveFor_eraseRule (reg : ProcessStream.Registry) (n : String) :
    ProcessStream.liveFor (ProcessStream.eraseRule reg n) n = [] := by
  unfold ProcessStream.liveFor ProcessStream.eraseRule
  induction reg with
  | nil => rfl
  | cons e rest ih =>
    by_cases h : e.1 = n <;> simp [h, ih]

/-- A Pending task image identical to imgPending except for deadline
100, used as the old image of a deadline change. The new image of the
change is imgPending200. -/
def imgPending200 : ProcessStream.Image :=
  ⟨some "USER#u1", some "TASK#t1", some "t1", some "u1", some "buy milk",
   some "Pending", some "200"⟩

/-- Processor environment with the ARN configured, the registry up, and
clock 60, sitting between the deadlines 50 and 100. -/
def cfg60 : ProcessStream.Config := ⟨true, true, 60⟩

/-- A Pending task image whose deadline 50 lies in the past of cfg60. -/
def imgPending50 : ProcessStream.Image :=
  ⟨some "USER#u1", some "TASK#t1", some "t1", some "u1", some "buy milk",
   some "Pending", some "50"⟩

/-- C8 counterexample: the claim says every Pending-to-Pending deadline
change leaves exactly one live trigger matching the new deadline. On a
concrete Modify that moves the deadline from 100 to 50 while the clock
stands at 60, the processor cancels the existing trigger and then
schedule_expiry_event skips the past deadline at line 48, so no schedule
command is issued and zero live triggers remain for the task, not one. -/
theorem C8_counterexample :
    ProcessStream.processRecord cfg60
        ⟨some "MODIFY", some imgPending50, some imgPending⟩
        [(ProcessStream.ruleName "t1", 100)] =
      Except.ok (([] : ProcessStream.Registry),
        [ProcessStream.RegAction.cancel (ProcessStream.ruleName "t1")]) := by
  rfl

/-- C8 amended: for a Modify record with status Pending in both images
and a changed, well-formed deadline, processed with the ARN configured
and the registry up, the processor cancels the existing trigger and then
runs the schedule action. When the new deadline is strictly in the
future this leaves exactly one live trigger for the task, bearing the
new deadline; when the new deadline is not in the future the schedule is
skipped and no live trigger remains. In either case the task never ends
up with two live triggers. -/
theorem C8_amended_reschedule_on_deadline_change (cfg : ProcessStream.Config)
    (imgO imgN : ProcessStream.Image) (reg : ProcessStream.Registry)
    (tid dso dsn : String) (dn : Int)
    (harn : cfg.expiryArnSet = true) (hreg : cfg.registryOk = true)
    (hfilter : ProcessStream.taskFilter imgN = false)
    (htid : imgN.taskId = some tid)
    (hso : imgO.status = some "Pending") (hsn : imgN.status = some "Pending")
    (hdo : imgO.deadline = some dso) (hdn : imgN.deadline = some dsn)
    (hoe : dso.isEmpty = false) (hnem : dsn.isEmpty = false)
    (hdiff : dso ≠ dsn)
    (hparse : ProcessStream.parseEpoch dsn = some dn)
    (huid : imgN.userId.isSome = true) (hpk : imgN.PK.isSome = true)
    (hsk : imgN.SK.isSome = true) :
    ProcessStream.processRecord cfg ⟨some "MODIFY", some imgN, some imgO⟩ reg =
      Except.ok
        ((if cfg.now < dn then
            (ProcessStream.ruleName tid, dn) ::
              ProcessStream.eraseRule reg (ProcessStream.ruleName tid)
          else ProcessStream.eraseRule reg (ProcessStream.ruleName tid)),
         (if cfg.now < dn then
            [ProcessStream.RegAction.cancel (ProcessStream.ruleName tid),
             ProcessStream.RegAction.schedule (ProcessStream.ruleName tid) dn]
          else [ProcessStream.RegAction.cancel (ProcessStream.ruleName tid)])) ∧
    ProcessStream.liveFor
        (if cfg.now < dn then
          (ProcessStream.ruleName tid, dn) ::
            ProcessStream.eraseRule reg (ProcessStream.ruleName tid)
         else ProcessStream.eraseRule reg (ProcessStream.ruleName tid))
        (ProcessStream.ruleName tid) =
      (if cfg.now < dn then [(ProcessStream.ruleName tid, dn)] else []) := by
  have hplan : ProcessStream.recordPlan ⟨some "MODIFY", some imgN, some imgO⟩ =
      ProcessStream.Plan.resched tid imgN := by
    unfold ProcessStream.recordPlan
    simp [hfilter, htid, hso, hsn, hdo, hdn, hoe, hnem, bne_iff_ne, hdiff]
  constructor
  · unfold ProcessStream.processRecord
    rw [hplan]
    unfold ProcessStream.runPlan
    obtain ⟨u, hu⟩ := Option.isSome_iff_exists.mp huid
    obtain ⟨pkv, hpkv⟩ := Option.isSome_iff_exists.mp hpk
    obtain ⟨skv, hskv⟩ := Option.isSome_iff_exists.mp hsk
    unfold ProcessStream.cancelExpiryEvent ProcessStream.scheduleExpiryEvent
    rw [hreg, harn]
    simp only [if_true, Bool.true_eq_false, if_false, hdn, hparse, htid, hu,
      hpkv, hskv]
    by_cases hlt : cfg.now < dn
    · have hnle : ¬ dn ≤ cfg.now := not_le.mpr hlt
      simp [hnle, hlt, hreg, eraseRule_idem]
    · have hle : dn ≤ cfg.now := not_lt.mp hlt
      simp [hle, hlt]
  · by_cases hlt : cfg.now < dn
    · have h1 : ProcessStream.liveFor
          ((ProcessStream.ruleName tid, dn) ::
            ProcessStream.eraseRule reg (ProcessStream.ruleName tid))
          (ProcessStream.ruleName tid) =
          (ProcessStream.ruleName tid, dn) ::
            ProcessStream.liveFor
              (ProcessStream.eraseRule reg (ProcessStream.ruleName tid))
              (ProcessStream.ruleName tid) := by
        simp [ProcessStream.liveFor]
      rw [if_pos hlt, if_pos hlt, h1, liveFor_eraseRule]
    · rw [if_neg hlt, if_neg hlt, liveFor_eraseRule]

/-- Witness for the amended C8: a deadline change from 100 to 200 at
clock 0 with one live trigger for the old deadline ends with exactly the
one rescheduled trigger at 200. -/
theorem C8_amended_witness :
    ProcessStream.processRecord cfgLive
        ⟨some "MODIFY", some imgPending200, some imgPending⟩
        [(ProcessStream.ruleName "t1", 100)] =
      Except.ok ([(ProcessStream.ruleName "t1", 200)],
        [ProcessStream.RegAction.cancel (ProcessStream.ruleName "t1"),
         ProcessStream.RegAction.schedule (ProcessStream.ruleName "t1") 200]) := by
  rw [(C8_amended_reschedule_on_deadline_change cfgLive imgPending imgPending200
    [(ProcessStream.ruleName "t1", 100)] "t1" "100" "200" 200
    rfl rfl (by decide) rfl rfl rfl rfl rfl (by decide) (by decide) (by decide)
    rfl rfl rfl rfl).1]
  rfl

/-- C9: a schedule action whose task deadline, parsed at processing time,
is not strictly in the future is skipped: schedule_expiry_event returns
at line 48 with the registry untouched and no command issued. -/
theorem C9_past_deadline_skipped (cfg : ProcessStream.Config)
    (img : ProcessStream.Image) (reg : ProcessStream.Registry)
    (ds : String) (d : Int)
    (hds : img.deadline = some ds)
    (hparse : ProcessStream.parseEpoch ds = some d)
    (hpast : d ≤ cfg.now) :
    ProcessStream.scheduleExpiryEvent cfg img reg = Except.ok (reg, []) := by
  unfold ProcessStream.scheduleExpiryEvent
  cases h : cfg.expiryArnSet
  · simp [h]
  · simp [h, hds, hparse, hpast]

/-- Witness for C9: deadline 100 at clock 200 schedules nothing. -/
theorem C9_witness :
    ProcessStream.scheduleExpiryEvent ⟨true, true, 200⟩ imgPending [] =
      Except.ok (([] : ProcessStream.Registry), []) :=
  C9_past_deadline_skipped ⟨true, true, 200⟩ imgPending [] "100" 100
    rfl rfl (by decide)

/-- C10 counterexample: the claim says a record whose relevant image is
absent is silently skipped. On a concrete Insert record carrying no
NewImage, get_task_details receives None at line 212 and raises
AttributeError, which the per-record block re-raises: the record fails
and is redelivered instead of being skipped. -/
theorem C10_counterexample :
    ProcessStream.processRecord cfgLive ⟨some "INSERT", none, none⟩ [] =
      Except.error () ∧
    Except.error () ≠
      (Except.ok (([] : ProcessStream.Registry),
        ([] : List ProcessStream.RegAction))) := by
  exact ⟨rfl, fun h => Except.noConfusion h⟩

/-- C10 amended: a record whose relevant images are present but whose
task view is empty, or whose sort key does not begin with TASK#, is
silently skipped for each event type: no schedule, no cancel, no
failure. A record whose relevant image is missing altogether instead
raises and is redelivered. -/
theorem C10_amended_task_filter_skips (cfg : ProcessStream.Config)
    (reg : ProcessStream.Registry) (imgR imgO : ProcessStream.Image)
    (hskip : ProcessStream.taskFilter imgR = true) :
    ProcessStream.processRecord cfg ⟨some "INSERT", some imgR, none⟩ reg =
        Except.ok (reg, []) ∧
    ProcessStream.processRecord cfg ⟨some "MODIFY", some imgR, some imgO⟩ reg =
        Except.ok (reg, []) ∧
    ProcessStream.processRecord cfg ⟨some "REMOVE", none, some imgR⟩ reg =
        Except.ok (reg, []) := by
  refine ⟨?_, ?_, ?_⟩ <;>
    · unfold ProcessStream.processRecord ProcessStream.recordPlan
      simp [hskip, ProcessStream.runPlan]

/-- A record with a sort key that is not a task item. -/
def imgNonTask : ProcessStream.Image :=
  ⟨some "USER#u1", some "USER#u1", none, some "u1", none, none, none⟩

/-- Witness for the amended C10: an Insert of a non-task item is
acknowledged with no registry command. -/
theorem C10_amended_witness :
    ProcessStream.processRecord cfgLive ⟨some "INSERT", some imgNonTask, none⟩ [] =
      Except.ok (([] : ProcessStream.Registry), ([] : List ProcessStream.RegAction)) :=
  (C10_amended_task_filter_skips cfgLive [] imgNonTask imgNonTask (by decide)).1

end Todo
